import Mathlib

/-!
Shallow embedding of the notebook `conv2d_explained.ipynb`.

The notebook defines a one-layer module around the framework primitive
`nn.Conv2d(in_channels=1, out_channels=10, kernel_size=5, stride=1,
padding=0, bias=True)`, lists its parameters, and runs a forward pass on a
random tensor of shape (128, 1, 28, 28).

Tensors are modelled as a shape (n, c, h, w) together with a total data
function into the rationals (idealising the framework floats as exact
arithmetic).  The convolution primitive is modelled from the framework
formula quoted in the notebook:
  out(N_i, C_out_j) = bias(C_out_j) + sum_k weight(C_out_j, k) star input(N_i, k)
with output spatial size (H + 2 pad - K) / stride + 1, and a shape guard
returning failure (the library exception) when the input is malformed.
-/

/-- A 4-D tensor: batch, channel, height, width and a data function. -/
structure Tensor4 where
  n : Nat
  c : Nat
  h : Nat
  w : Nat
  data : Nat → Nat → Nat → Nat → ℚ

/-- The shape tuple of a tensor, as the framework reports it. -/
def Tensor4.shape (t : Tensor4) : Nat × Nat × Nat × Nat := (t.n, t.c, t.h, t.w)

/-- Build a tensor from a shape and a data function (`torch.rand(n,c,h,w)`
produces such a tensor; the data is arbitrary). -/
def mkTensor (n c h w : Nat) (d : Nat → Nat → Nat → Nat → ℚ) : Tensor4 :=
  ⟨n, c, h, w, d⟩

/-- Elementwise sum of two tensors (shape taken from the first). -/
def Tensor4.add (x y : Tensor4) : Tensor4 :=
  ⟨x.n, x.c, x.h, x.w, fun i j a b => x.data i j a b + y.data i j a b⟩

/-- The all-zeros tensor of a given shape. -/
def Tensor4.zeros (n c h w : Nat) : Tensor4 :=
  ⟨n, c, h, w, fun _ _ _ _ => 0⟩

/-- Extensional equality of tensors: equal shapes and equal entries at
every index inside the shape. -/
def Tensor4.Equiv (x y : Tensor4) : Prop :=
  x.n = y.n ∧ x.c = y.c ∧ x.h = y.h ∧ x.w = y.w ∧
    ∀ i < x.n, ∀ j < x.c, ∀ a < x.h, ∀ b < x.w, x.data i j a b = y.data i j a b

instance (x y : Tensor4) : Decidable (Tensor4.Equiv x y) :=
  inferInstanceAs (Decidable
    (x.n = y.n ∧ x.c = y.c ∧ x.h = y.h ∧ x.w = y.w ∧
      ∀ i < x.n, ∀ j < x.c, ∀ a < x.h, ∀ b < x.w, x.data i j a b = y.data i j a b))

/-- Reading the zero-padded input at absolute coordinates of the padded
feature map: inside the original map it is the stored entry, in the pad it
is zero. -/
def padRead (pad : Nat) (x : Tensor4) (i k r s : Nat) : ℚ :=
  if pad ≤ r ∧ r < pad + x.h ∧ pad ≤ s ∧ s < pad + x.w then
    x.data i k (r - pad) (s - pad)
  else 0

/-- The framework convolution layer with the hyperparameters the notebook
passes to `nn.Conv2d`; `bias = none` models `bias=False`. -/
structure Conv2d where
  in_channels : Nat
  out_channels : Nat
  kernel_size : Nat
  stride : Nat
  padding : Nat
  weight : Nat → Nat → Nat → Nat → ℚ
  bias : Option (Nat → ℚ)

/-- The bias summand of the convolution formula (zero when `bias=False`). -/
def Conv2d.biasTerm (L : Conv2d) (j : Nat) : ℚ :=
  match L.bias with
  | some b => b j
  | none => 0

/-- Applying the framework layer to a 4-D input, following the documented
formula.  On a malformed shape (channel mismatch, or a spatial dimension
too small for the kernel) the library raises; this is modelled as `none`. -/
def Conv2d.apply (L : Conv2d) (x : Tensor4) : Option Tensor4 :=
  if x.c = L.in_channels ∧ L.kernel_size ≤ x.h + 2 * L.padding ∧
      L.kernel_size ≤ x.w + 2 * L.padding ∧ 0 < L.stride then
    some
      { n := x.n
        c := L.out_channels
        h := (x.h + 2 * L.padding - L.kernel_size) / L.stride + 1
        w := (x.w + 2 * L.padding - L.kernel_size) / L.stride + 1
        data := fun i j a b =>
          L.biasTerm j +
            Finset.sum (Finset.range L.in_channels) (fun k =>
              Finset.sum (Finset.range L.kernel_size) (fun p =>
                Finset.sum (Finset.range L.kernel_size) (fun q =>
                  L.weight j k p q *
                    padRead L.padding x i k (a * L.stride + p) (b * L.stride + q)))) }
  else none

/-- A parameter tensor as `.parameters()` reports it: its size list. -/
structure ParamTensor where
  size : List Nat

/-- The number of elements of a parameter tensor. -/
def ParamTensor.numel (p : ParamTensor) : Nat := p.size.prod

/-- `list(layer.parameters())`: the weight tensor of size
(out_channels, in_channels, K, K), followed by the bias tensor of size
(out_channels,) when the layer has a bias. -/
def Conv2d.parameters (L : Conv2d) : List ParamTensor :=
  ⟨[L.out_channels, L.in_channels, L.kernel_size, L.kernel_size]⟩ ::
    (match L.bias with
     | some _ => [⟨[L.out_channels]⟩]
     | none => [])

/-- The notebook module: a single `nn.Conv2d` field and nothing else. -/
structure OneLayerConv2d where
  conv1 : Conv2d

/-- `OneLayerConv2d.__init__`: constructs `self.conv1 = nn.Conv2d(
in_channels=1, out_channels=10, kernel_size=5, stride=1, padding=0,
bias=True)`.  The framework initialises weight and bias randomly; they are
taken as parameters here. -/
def OneLayerConv2d.init (w : Nat → Nat → Nat → Nat → ℚ) (b : Nat → ℚ) :
    OneLayerConv2d :=
  ⟨{ in_channels := 1
     out_channels := 10
     kernel_size := 5
     stride := 1
     padding := 0
     weight := w
     bias := some b }⟩

/-- `OneLayerConv2d.forward`: `return self.conv1(x)`. -/
def OneLayerConv2d.forward (m : OneLayerConv2d) (x : Tensor4) : Option Tensor4 :=
  Conv2d.apply m.conv1 x

/-- `forward` as a state transformer: the Python call computes the output
and leaves the module as it was (the body performs no assignment). -/
def OneLayerConv2d.forwardSt (m : OneLayerConv2d) (x : Tensor4) :
    Option Tensor4 × OneLayerConv2d :=
  (Conv2d.apply m.conv1 x, m)

/-- Modelled from the spec: the spec says forward "equals the external
library's Conv2d layer applied directly to x", with "no processing before
or after the library call".  This definition follows those words: apply
the library primitive to the module's layer and the input, and nothing
else. -/
def forwardSpec (m : OneLayerConv2d) (x : Tensor4) : Option Tensor4 :=
  Conv2d.apply m.conv1 x

/-- Python 2 `reduce(lambda x, y: x*y, l)`: left fold of multiplication
over a non-empty list; raises (`none`) on an empty list. -/
def reduceMul : List Nat → Option Nat
  | [] => none
  | a :: t => some (t.foldl (fun u v => u * v) a)

/-- The notebook's executable cells in order: construct the module, list
its parameters and print their count, print the weight size and the
element counts, build the random (128, 1, 28, 28) input, run the forward
pass, and report the printed shapes.  Any failing step makes the run
`none`. -/
def notebookRun (w : Nat → Nat → Nat → Nat → ℚ) (b : Nat → ℚ)
    (xd : Nat → Nat → Nat → Nat → ℚ) :
    Option (Nat × List Nat × Nat × Nat ×
      (Nat × Nat × Nat × Nat) × (Nat × Nat × Nat × Nat)) := do
  let m := OneLayerConv2d.init w b
  let params := m.conv1.parameters
  let nparams := params.length
  let p0 ← params.get? 0
  let kcount ← reduceMul p0.size
  let p1 ← params.get? 1
  let bcount ← p1.size.get? 0
  let x := mkTensor 128 1 28 28 xd
  let out ← m.forward x
  pure (nparams, p0.size, kcount, bcount, x.shape, out.shape)

/-- Equivalence of optional results: both fail, or both succeed with
extensionally equal tensors. -/
def OptEquiv : Option Tensor4 → Option Tensor4 → Prop
  | some a, some b => Tensor4.Equiv a b
  | none, none => True
  | _, _ => False

instance : (o1 o2 : Option Tensor4) → Decidable (OptEquiv o1 o2)
  | some a, some b => (inferInstance : Decidable (Tensor4.Equiv a b))
  | none, none => isTrue trivial
  | some _, none => isFalse (fun h => h)
  | none, some _ => isFalse (fun h => h)

/-- Elementwise sum of two optional tensors; fails if either fails. -/
def optAdd : Option Tensor4 → Option Tensor4 → Option Tensor4
  | some a, some b => some (a.add b)
  | _, _ => none

/-- Sample zero weight function, for concrete witnesses. -/
def w0 : Nat → Nat → Nat → Nat → ℚ := fun _ _ _ _ => 0

/-- Sample weight function with distinct entries, for concrete witnesses. -/
def w1 : Nat → Nat → Nat → Nat → ℚ := fun j _ p q => (j : ℚ) + (p : ℚ) * (q : ℚ)

/-- Sample bias function, for concrete witnesses. -/
def b0 : Nat → ℚ := fun j => (j : ℚ)

/-- Sample input data function, for concrete witnesses. -/
def d0 : Nat → Nat → Nat → Nat → ℚ := fun _ _ a b => (a : ℚ) - (b : ℚ)

/-- A second sample input data function, for concrete witnesses. -/
def d1 : Nat → Nat → Nat → Nat → ℚ := fun _ _ _ b => (b : ℚ) + 1

-- Helper lemmas shared by several claim theorems.

theorem init_forward_valid (w : Nat → Nat → Nat → Nat → ℚ) (b : Nat → ℚ)
    (x : Tensor4) (hc : x.c = 1) (hh : 5 ≤ x.h) (hw : 5 ≤ x.w) :
    (OneLayerConv2d.init w b).forward x =
      some
        { n := x.n
          c := 10
          h := x.h - 4
          w := x.w - 4
          data := fun i j a b2 =>
            b j +
              Finset.sum (Finset.range 1) (fun k =>
                Finset.sum (Finset.range 5) (fun p =>
                  Finset.sum (Finset.range 5) (fun q =>
                    w j k p q * padRead 0 x i k (a * 1 + p) (b2 * 1 + q)))) } := by
  unfold OneLayerConv2d.forward OneLayerConv2d.init Conv2d.apply
  dsimp only [Conv2d.biasTerm]
  rw [if_pos ⟨hc, by omega, by omega, by omega⟩]
  simp only [Option.some.injEq, Tensor4.mk.injEq]
  refine ⟨trivial, trivial, by omega, by omega, trivial⟩

theorem init_forward_shape (w : Nat → Nat → Nat → Nat → ℚ) (b : Nat → ℚ)
    (x : Tensor4) (hc : x.c = 1) (hh : 5 ≤ x.h) (hw : 5 ≤ x.w) :
    Option.map Tensor4.shape ((OneLayerConv2d.init w b).forward x) =
      some (x.n, 10, x.h - 4, x.w - 4) := by
  rw [init_forward_valid w b x hc hh hw]
  rfl

theorem init_forward_invalid (w : Nat → Nat → Nat → Nat → ℚ) (b : Nat → ℚ)
    (x : Tensor4) (hbad : ¬(x.c = 1 ∧ 5 ≤ x.h ∧ 5 ≤ x.w)) :
    (OneLayerConv2d.init w b).forward x = none := by
  unfold OneLayerConv2d.forward OneLayerConv2d.init Conv2d.apply
  dsimp only
  rw [if_neg]
  intro hgood
  obtain ⟨h1, h2, h3, -⟩ := hgood
  exact hbad ⟨h1, by omega, by omega⟩

theorem padRead_congr (x1 x2 : Tensor4) (eh : x1.h = x2.h) (ew : x1.w = x2.w)
    (i k r s : Nat) (hi : i < x1.n) (hk : k < x1.c)
    (ed : ∀ i < x1.n, ∀ j < x1.c, ∀ a < x1.h, ∀ b < x1.w,
      x1.data i j a b = x2.data i j a b) :
    padRead 0 x1 i k r s = padRead 0 x2 i k r s := by
  unfold padRead
  by_cases hin : 0 ≤ r ∧ r < 0 + x1.h ∧ 0 ≤ s ∧ s < 0 + x1.w
  · rw [if_pos hin, if_pos (by omega)]
    exact ed i hi k hk (r - 0) (by omega) (s - 0) (by omega)
  · rw [if_neg hin, if_neg (by omega)]

theorem padRead_add (x y : Tensor4) (hh : x.h = y.h) (hw : x.w = y.w)
    (i k r s : Nat) :
    padRead 0 (Tensor4.add x y) i k r s =
      padRead 0 x i k r s + padRead 0 y i k r s := by
  unfold padRead Tensor4.add
  dsimp only
  by_cases hin : 0 ≤ r ∧ r < 0 + x.h ∧ 0 ≤ s ∧ s < 0 + x.w
  · rw [if_pos hin, if_pos hin, if_pos (by omega)]
  · rw [if_neg hin, if_neg hin, if_neg (by omega)]
    norm_num

theorem padRead_zeros (n c h w i k r s : Nat) :
    padRead 0 (Tensor4.zeros n c h w) i k r s = 0 := by
  unfold padRead Tensor4.zeros
  dsimp only
  split_ifs <;> rfl

-- Claim theorems.

/-- C1: for every input tensor of shape (N, 1, H, W) with H ≥ 5 and
W ≥ 5, `OneLayerConv2d.forward` produces an output tensor of shape
(N, 10, H - 4, W - 4), the convolution output-size formula for
kernel 5, stride 1, padding 0. -/
theorem forward_output_shape (w : Nat → Nat → Nat → Nat → ℚ) (b : Nat → ℚ)
    (x : Tensor4) (hc : x.c = 1) (hh : 5 ≤ x.h) (hw : 5 ≤ x.w) :
    Option.map Tensor4.shape ((OneLayerConv2d.init w b).forward x) =
      some (x.n, 10, x.h - 4, x.w - 4) :=
  init_forward_shape w b x hc hh hw

/-- Witness for C1 at a concrete (2, 1, 6, 7) input. -/
theorem forward_output_shape_witness :
    Option.map Tensor4.shape
        ((OneLayerConv2d.init w1 b0).forward (mkTensor 2 1 6 7 d0)) =
      some (2, 10, 2, 3) :=
  forward_output_shape w1 b0 (mkTensor 2 1 6 7 d0) rfl (by decide) (by decide)

/-- C2: the program instantiates exactly one convolution layer, with
in_channels = 1, out_channels = 10, kernel_size = 5, stride = 1,
padding = 0 and a bias, and forward applies that single layer and
nothing else — no other layer, pooling, or activation. -/
theorem one_layer_structure (w : Nat → Nat → Nat → Nat → ℚ) (b : Nat → ℚ) :
    ((OneLayerConv2d.init w b).conv1.in_channels = 1 ∧
      (OneLayerConv2d.init w b).conv1.out_channels = 10 ∧
      (OneLayerConv2d.init w b).conv1.kernel_size = 5 ∧
      (OneLayerConv2d.init w b).conv1.stride = 1 ∧
      (OneLayerConv2d.init w b).conv1.padding = 0 ∧
      (OneLayerConv2d.init w b).conv1.bias = some b) ∧
      ∀ x : Tensor4,
        (OneLayerConv2d.init w b).forward x =
          Conv2d.apply (OneLayerConv2d.init w b).conv1 x :=
  ⟨⟨rfl, rfl, rfl, rfl, rfl, rfl⟩, fun _ => rfl⟩

/-- C3: `list(conv_layer.parameters())` has exactly 2 tensors: the weight
of size (10, 1, 5, 5) with 250 elements and the bias of size (10,) with
10 elements, 260 parameters in total. -/
theorem parameters_spec (w : Nat → Nat → Nat → Nat → ℚ) (b : Nat → ℚ) :
    ((OneLayerConv2d.init w b).conv1.parameters).length = 2 ∧
      ((OneLayerConv2d.init w b).conv1.parameters).map ParamTensor.size =
        [[10, 1, 5, 5], [10]] ∧
      ((OneLayerConv2d.init w b).conv1.parameters).map ParamTensor.numel =
        [250, 10] ∧
      (((OneLayerConv2d.init w b).conv1.parameters).map ParamTensor.numel).sum =
        260 :=
  ⟨rfl, rfl, rfl, rfl⟩

/-- C4: the forward pass on the random (128, 1, 28, 28) input returns an
output tensor of shape (128, 10, 24, 24), whatever the random data is. -/
theorem forward_mnist_shape (w : Nat → Nat → Nat → Nat → ℚ) (b : Nat → ℚ)
    (xd : Nat → Nat → Nat → Nat → ℚ) :
    Option.map Tensor4.shape
        ((OneLayerConv2d.init w b).forward (mkTensor 128 1 28 28 xd)) =
      some (128, 10, 24, 24) := by
  rw [init_forward_shape w b (mkTensor 128 1 28 28 xd) rfl
    (by norm_num [mkTensor]) (by norm_num [mkTensor])]
  norm_num [mkTensor]

/-- C5: every execution of the notebook succeeds end to end — every step
returns its printed values and none fails — for any random weights, bias
and input data; in particular no step fails for any reason other than a
library shape exception (none is ever raised, the shapes being
well-formed). -/
theorem notebook_run_total (w : Nat → Nat → Nat → Nat → ℚ) (b : Nat → ℚ)
    (xd : Nat → Nat → Nat → Nat → ℚ) :
    notebookRun w b xd =
      some (2, [10, 1, 5, 5], 250, 10, (128, 1, 28, 28), (128, 10, 24, 24)) := by
  have hp : (OneLayerConv2d.init w b).conv1.parameters =
      [⟨[10, 1, 5, 5]⟩, ⟨[10]⟩] := rfl
  have hfwd := init_forward_valid w b (mkTensor 128 1 28 28 xd) rfl
    (by norm_num [mkTensor]) (by norm_num [mkTensor])
  simp only [notebookRun, hp, hfwd]
  norm_num [reduceMul, List.foldl, List.get?, Tensor4.shape, mkTensor]

/-- C6: on an input whose shape is malformed for the layer (channel
dimension not 1, or a spatial dimension below the kernel size 5),
forward raises the library exception — modelled as `none` — instead of
returning a tensor. -/
theorem forward_malformed_none (w : Nat → Nat → Nat → Nat → ℚ) (b : Nat → ℚ)
    (x : Tensor4) (hbad : x.c ≠ 1 ∨ x.h < 5 ∨ x.w < 5) :
    (OneLayerConv2d.init w b).forward x = none :=
  init_forward_invalid w b x (by omega)

/-- Witness for C6 at a concrete 3-channel input. -/
theorem forward_malformed_none_witness :
    (OneLayerConv2d.init w1 b0).forward (mkTensor 4 3 28 28 d0) = none :=
  forward_malformed_none w1 b0 (mkTensor 4 3 28 28 d0) (by decide)

/-- C7: forward equals the external library's Conv2d layer applied
directly to the input — the convolution is not reimplemented, tuned or
extended, and forward adds no processing before or after the library
call. -/
theorem forward_refines_library (m : OneLayerConv2d) (x : Tensor4) :
    m.forward x = forwardSpec m x :=
  rfl

/-- C8: calling forward leaves the layer's weight and bias parameter
tensors unchanged, and its result is the forward output. -/
theorem forward_frame (m : OneLayerConv2d) (x : Tensor4) :
    (m.forwardSt x).2.conv1.weight = m.conv1.weight ∧
      (m.forwardSt x).2.conv1.bias = m.conv1.bias ∧
      (m.forwardSt x).1 = m.forward x :=
  ⟨rfl, rfl, rfl⟩

/-- C9: forward is deterministic — two calls with equal weight and bias
parameter values (pointwise on the parameter tensors) and equal input
tensors produce equal outputs. -/
theorem forward_deterministic (wA wB : Nat → Nat → Nat → Nat → ℚ)
    (bA bB : Nat → ℚ) (x1 x2 : Tensor4)
    (hw : ∀ j < 10, ∀ k < 1, ∀ p < 5, ∀ q < 5, wA j k p q = wB j k p q)
    (hb : ∀ j < 10, bA j = bB j)
    (hx : Tensor4.Equiv x1 x2) :
    OptEquiv ((OneLayerConv2d.init wA bA).forward x1)
      ((OneLayerConv2d.init wB bB).forward x2) := by
  obtain ⟨en, ec, eh, ew, ed⟩ := hx
  by_cases hval : x1.c = 1 ∧ 5 ≤ x1.h ∧ 5 ≤ x1.w
  · obtain ⟨h1, h2, h3⟩ := hval
    rw [init_forward_valid wA bA x1 h1 h2 h3,
      init_forward_valid wB bB x2 (ec ▸ h1) (eh ▸ h2) (ew ▸ h3)]
    refine ⟨en, rfl, ?_, ?_, ?_⟩
    · dsimp only
      omega
    · dsimp only
      omega
    intro i hi j hj a ha t ht
    dsimp only
    rw [hb j hj]
    congr 1
    refine Finset.sum_congr rfl (fun k hk => ?_)
    refine Finset.sum_congr rfl (fun p hp => ?_)
    refine Finset.sum_congr rfl (fun q hq => ?_)
    rw [hw j hj k (Finset.mem_range.mp hk) p (Finset.mem_range.mp hp)
      q (Finset.mem_range.mp hq)]
    congr 1
    exact padRead_congr x1 x2 eh ew i k (a * 1 + p) (t * 1 + q) hi
      (by have := Finset.mem_range.mp hk; omega) ed
  · rw [init_forward_invalid wA bA x1 hval,
      init_forward_invalid wB bB x2 (by omega)]
    trivial

/-- Witness for C9 at concrete equal parameters and inputs. -/
theorem forward_deterministic_witness :
    OptEquiv ((OneLayerConv2d.init w1 b0).forward (mkTensor 1 1 5 5 d0))
      ((OneLayerConv2d.init w1 b0).forward (mkTensor 1 1 5 5 d0)) :=
  forward_deterministic w1 w1 b0 b0 (mkTensor 1 1 5 5 d0) (mkTensor 1 1 5 5 d0)
    (fun _ _ _ _ _ _ _ _ => rfl) (fun _ _ => rfl)
    ⟨rfl, rfl, rfl, rfl, fun _ _ _ _ _ _ _ _ => rfl⟩

/-- C10: forward is affine in its input — on same-shape valid inputs x
and y, forward(x + y) + forward(0) agrees with forward(x) + forward(y),
with 0 the all-zeros tensor of that shape. -/
theorem forward_affine (w : Nat → Nat → Nat → Nat → ℚ) (b : Nat → ℚ)
    (x y : Tensor4)
    (hn : x.n = y.n) (hcc : x.c = y.c) (hh : x.h = y.h) (hww : x.w = y.w)
    (hc1 : x.c = 1) (hh5 : 5 ≤ x.h) (hw5 : 5 ≤ x.w) :
    OptEquiv
      (optAdd ((OneLayerConv2d.init w b).forward (Tensor4.add x y))
        ((OneLayerConv2d.init w b).forward (Tensor4.zeros x.n x.c x.h x.w)))
      (optAdd ((OneLayerConv2d.init w b).forward x)
        ((OneLayerConv2d.init w b).forward y)) := by
  rw [init_forward_valid w b (Tensor4.add x y) hc1 hh5 hw5,
    init_forward_valid w b (Tensor4.zeros x.n x.c x.h x.w) hc1 hh5 hw5,
    init_forward_valid w b x hc1 hh5 hw5,
    init_forward_valid w b y (hcc ▸ hc1) (hh ▸ hh5) (hww ▸ hw5)]
  simp only [padRead_add x y hh hww, padRead_zeros, mul_add, mul_zero,
    Finset.sum_add_distrib, Finset.sum_const_zero, add_zero]
  dsimp only [optAdd, OptEquiv, Tensor4.add, Tensor4.zeros]
  refine ⟨rfl, rfl, rfl, rfl, ?_⟩
  intro i hi j hj a ha t ht
  dsimp only
  ring

/-- Witness for C10 at concrete (1, 1, 5, 5) inputs. -/
theorem forward_affine_witness :
    OptEquiv
      (optAdd
        ((OneLayerConv2d.init w1 b0).forward
          (Tensor4.add (mkTensor 1 1 5 5 d0) (mkTensor 1 1 5 5 d1)))
        ((OneLayerConv2d.init w1 b0).forward (Tensor4.zeros 1 1 5 5)))
      (optAdd ((OneLayerConv2d.init w1 b0).forward (mkTensor 1 1 5 5 d0))
        ((OneLayerConv2d.init w1 b0).forward (mkTensor 1 1 5 5 d1))) :=
  forward_affine w1 b0 (mkTensor 1 1 5 5 d0) (mkTensor 1 1 5 5 d1)
    rfl rfl rfl rfl rfl (by decide) (by decide)
